import Mathlib

/-!
Verification of `analyze_heroes.py`.

The script loads a JSON document mapping user ids to hero records, tallies
old-format (string) versus new-format (dict) equipped items, detects items
from a fixed removed-item list, sums inventory sizes, and prints a sample of
the first three heroes.

The embedding below models JSON values as an inductive type (numbers as
integers, which is all the program's data uses), models each `print` as an
abstract output line carrying the printed data, and models Python's uncaught
exceptions (`KeyError`, `AttributeError`, `TypeError`) with `Except String`.
A run is the `Except`-valued function `run`; a failure anywhere aborts the
whole report, exactly as an uncaught Python exception does.
-/

/-- JSON values, as produced by `json.load`.  Objects are insertion-ordered
association lists (Python dicts preserve insertion order). -/
inductive Json where
  | null : Json
  | bool (b : Bool) : Json
  | num (n : Int) : Json
  | str (s : String) : Json
  | arr (xs : List Json) : Json
  | obj (fields : List (String × Json)) : Json

/-- Python truthiness of a JSON value (`if equipped:`, `any(...)`):
`None`, `False`, `0`, `""`, `[]` and `{}` are falsy. -/
def truthy : Json → Bool
  | Json.null => false
  | Json.bool b => b
  | Json.num n => n != 0
  | Json.str s => s != ""
  | Json.arr xs => !xs.isEmpty
  | Json.obj fs => !fs.isEmpty

/-- First-match lookup in an association list (dict key access). -/
def lookupList (fs : List (String × Json)) (k : String) : Option Json :=
  match fs with
  | [] => none
  | p :: rest => if p.1 = k then some p.2 else lookupList rest k

/-- `x[k]` on a JSON value: `KeyError` when the key is absent, a type error
when the value is not a dict. -/
def getKey (j : Json) (k : String) : Except String Json :=
  match j with
  | Json.obj fs =>
    match lookupList fs k with
    | some v => Except.ok v
    | none => Except.error ("KeyError: " ++ k)
  | _ => Except.error "TypeError: value is not subscriptable by a string key"

/-- `x.get(k, d)` on a JSON value: the default when the key is absent,
`AttributeError` when the value is not a dict. -/
def getD (j : Json) (k : String) (d : Json) : Except String Json :=
  match j with
  | Json.obj fs => Except.ok ((lookupList fs k).getD d)
  | _ => Except.error "AttributeError: value has no get method"

/-- The field list of a dict-valued JSON value (`.items()` / `.values()`);
`AttributeError` on any other shape. -/
def getItems (j : Json) : Except String (List (String × Json)) :=
  match j with
  | Json.obj fs => Except.ok fs
  | _ => Except.error "AttributeError: value has no items method"

/-- Python `len` on a JSON value: defined for sequences, strings and dicts,
`TypeError` otherwise. -/
def jsonLen : Json → Except String Nat
  | Json.arr xs => Except.ok xs.length
  | Json.str s => Except.ok s.length
  | Json.obj fs => Except.ok fs.length
  | _ => Except.error "TypeError: value has no len"

/-- One printed line of the report, as structured data. -/
inductive Line where
  | totalHeroes (n : Nat) : Line
  | oldFormatDiag (uid slot itemValue : String) : Line
  | heroesWithItems (n : Nat) : Line
  | oldFormatCount (n : Nat) : Line
  | newFormatCount (n : Nat) : Line
  | removedCount (n : Nat) : Line
  | removedDetail (uid slot : String) (itemValue : Json) : Line
  | inventoryTotal (n : Nat) : Line
  | sampleHeader : Line
  | sampleUser (uid : String) : Line
  | sampleStats (level energy maxEnergy : Json) : Line
  | sampleEquipped (equippedValue : Json) : Line
  | sampleInventory (n : Nat) : Line

/-- `REMOVED_ITEMS` from the script. -/
def REMOVED_ITEMS : List String := ["👷", "🦹", "🕵️", "🦴", "🦙"]

/-- `equipped.get('id') in REMOVED_ITEMS`: `.get` yields `None` when `id` is
absent, and only a string result can match the string list. -/
def idInRemoved (fs : List (String × Json)) : Bool :=
  match lookupList fs "id" with
  | some (Json.str t) => REMOVED_ITEMS.contains t
  | _ => false

/-- Mutable state of the census loop (lines 9-12 of the script), plus the
diagnostic lines printed during the loop. -/
structure CensusState where
  heroesWithItems : Nat
  oldCount : Nat
  newCount : Nat
  removed : List (String × String × Json)
  diag : List Line

def initialCensus : CensusState := ⟨0, 0, 0, [], []⟩

/-- Body of the inner loop (lines 21-30): classify one equipped slot value. -/
def processSlot (uid slot : String) (v : Json) (s : CensusState) : CensusState :=
  if truthy v then
    match v with
    | Json.str t =>
      let s1 := { s with oldCount := s.oldCount + 1 }
      let s2 :=
        if REMOVED_ITEMS.contains t then
          { s1 with removed := s1.removed ++ [(uid, slot, Json.str t)] }
        else s1
      { s2 with diag := s2.diag ++ [Line.oldFormatDiag uid slot t] }
    | Json.obj fs =>
      let s1 := { s with newCount := s.newCount + 1 }
      if idInRemoved fs then
        { s1 with removed := s1.removed ++ [(uid, slot, Json.obj fs)] }
      else s1
    | _ => s
  else s

/-- `any(hero['equipped'].values())`. -/
def hasAnyTruthy (slots : List (String × Json)) : Bool :=
  slots.any (fun q => truthy q.2)

/-- The inner loop over all equipped slots of one hero. -/
def censusSlots (uid : String) (slots : List (String × Json)) (s : CensusState) :
    CensusState :=
  match slots with
  | [] => s
  | q :: rest => censusSlots uid rest (processSlot uid q.1 q.2 s)

/-- Body of the outer census loop (lines 16-30) for one hero: access
`hero['equipped']`, test `any(...values())`, and if truthy increment the
heroes-with-items counter and classify every slot. -/
def processHero (uid : String) (hero : Json) (s : CensusState) :
    Except String CensusState :=
  match getKey hero "equipped" with
  | Except.error e => Except.error e
  | Except.ok eqv =>
    match getItems eqv with
    | Except.error e => Except.error e
    | Except.ok slots =>
      if hasAnyTruthy slots then
        Except.ok (censusSlots uid slots
          { s with heroesWithItems := s.heroesWithItems + 1 })
      else
        Except.ok s

/-- The census loop over all heroes, in document order. -/
def runCensus (data : List (String × Json)) (s : CensusState) :
    Except String CensusState :=
  match data with
  | [] => Except.ok s
  | p :: rest =>
    match processHero p.1 p.2 s with
    | Except.error e => Except.error e
    | Except.ok s2 => runCensus rest s2

/-- Sequential effectful map, failing at the first raising element, like a
Python comprehension or loop. -/
def mapME {α β : Type} (f : α → Except String β) : List α → Except String (List β)
  | [] => Except.ok []
  | a :: rest =>
    match f a with
    | Except.error e => Except.error e
    | Except.ok b =>
      match mapME f rest with
      | Except.error e => Except.error e
      | Except.ok bs => Except.ok (b :: bs)

/-- `len(h['inventory'])` for one hero (line 41). -/
def invLenOf (p : String × Json) : Except String Nat :=
  match getKey p.2 "inventory" with
  | Except.error e => Except.error e
  | Except.ok inv => jsonLen inv

/-- One sample block (lines 47-50): the per-field accesses in print order,
with `hero.get('maxEnergy', 3)` defaulting to `3`. -/
def sampleBlockE (p : String × Json) : Except String (List Line) :=
  match getKey p.2 "level" with
  | Except.error e => Except.error e
  | Except.ok lvl =>
    match getKey p.2 "energy" with
    | Except.error e => Except.error e
    | Except.ok en =>
      match getD p.2 "maxEnergy" (Json.num 3) with
      | Except.error e => Except.error e
      | Except.ok mx =>
        match getKey p.2 "equipped" with
        | Except.error e => Except.error e
        | Except.ok eqv =>
          match getKey p.2 "inventory" with
          | Except.error e => Except.error e
          | Except.ok inv =>
            match jsonLen inv with
            | Except.error e => Except.error e
            | Except.ok n =>
              Except.ok [Line.sampleUser p.1, Line.sampleStats lvl en mx,
                Line.sampleEquipped eqv, Line.sampleInventory n]

/-- The whole report on a parsed document: total-count line, census pass
with interleaved old-format diagnostics, summary block, removed-item detail
lines, inventory total, sample header and up to three sample blocks, in the
exact print order of the script.  A non-dict top level fails at `.items()`. -/
def analyze (doc : Json) : Except String (List Line) :=
  match doc with
  | Json.obj data =>
    match runCensus data initialCensus with
    | Except.error e => Except.error e
    | Except.ok s =>
      match mapME invLenOf data with
      | Except.error e => Except.error e
      | Except.ok lens =>
        match mapME sampleBlockE (data.take 3) with
        | Except.error e => Except.error e
        | Except.ok samples =>
          Except.ok ([Line.totalHeroes data.length]
            ++ s.diag
            ++ [Line.heroesWithItems s.heroesWithItems,
                Line.oldFormatCount s.oldCount,
                Line.newFormatCount s.newCount,
                Line.removedCount s.removed.length]
            ++ s.removed.map (fun r => Line.removedDetail r.1 r.2.1 r.2.2)
            ++ [Line.inventoryTotal lens.sum]
            ++ [Line.sampleHeader]
            ++ samples.flatten)
  | _ => Except.error "AttributeError: top-level value has no items method"

/-- A full run: `open`/`json.load` either yield a document or raise; a load
failure aborts before any analysis. -/
def run (load : Except String Json) : Except String (List Line) :=
  match load with
  | Except.error e => Except.error e
  | Except.ok doc => analyze doc

/-! ### Specification-side recomputations

Direct, loop-free descriptions of each tallied quantity, used to state the
claims.  They are compared with what `analyze` produces. -/

/-- Is a JSON value a string? -/
def isStrB : Json → Bool
  | Json.str _ => true
  | _ => false

/-- Is a JSON value a dict? -/
def isObjB : Json → Bool
  | Json.obj _ => true
  | _ => false

/-- Contribution of one slot value to the old-format counter. -/
def slotOldN (v : Json) : Nat :=
  if truthy v then (match v with | Json.str _ => 1 | _ => 0) else 0

/-- Contribution of one slot value to the new-format counter. -/
def slotNewN (v : Json) : Nat :=
  if truthy v then (match v with | Json.obj _ => 1 | _ => 0) else 0

/-- A truthy value that is neither a string nor a dict. -/
def slotOtherN (v : Json) : Nat :=
  if truthy v then
    (match v with | Json.str _ => 0 | Json.obj _ => 0 | _ => 1)
  else 0

/-- Indicator of a truthy slot value. -/
def slotTruthyN (v : Json) : Nat := if truthy v then 1 else 0

/-- Removed-item matches contributed by one slot value, as
`(user_id, slot, raw_value)` tuples. -/
def slotRem (uid slot : String) (v : Json) : List (String × String × Json) :=
  if truthy v then
    match v with
    | Json.str t =>
      if REMOVED_ITEMS.contains t then [(uid, slot, Json.str t)] else []
    | Json.obj fs =>
      if idInRemoved fs then [(uid, slot, Json.obj fs)] else []
    | _ => []
  else []

/-- Old-format diagnostic lines contributed by one slot value. -/
def slotDiag (uid slot : String) (v : Json) : List Line :=
  if truthy v then
    match v with
    | Json.str t => [Line.oldFormatDiag uid slot t]
    | _ => []
  else []

/-- The equipped slots of a hero record, empty when the record is not a dict
or its `equipped` value is not a dict (those heroes make the program fail,
so the default never matters on successful runs). -/
def equippedSlots (hero : Json) : List (String × Json) :=
  match hero with
  | Json.obj fs =>
    match lookupList fs "equipped" with
    | some (Json.obj slots) => slots
    | _ => []
  | _ => []

def heroHW (hero : Json) : Nat :=
  if hasAnyTruthy (equippedSlots hero) then 1 else 0

def heroOld (hero : Json) : Nat :=
  ((equippedSlots hero).map (fun q => slotOldN q.2)).sum

def heroNew (hero : Json) : Nat :=
  ((equippedSlots hero).map (fun q => slotNewN q.2)).sum

def heroOther (hero : Json) : Nat :=
  ((equippedSlots hero).map (fun q => slotOtherN q.2)).sum

def heroTruthy (hero : Json) : Nat :=
  ((equippedSlots hero).map (fun q => slotTruthyN q.2)).sum

def heroRem (uid : String) (hero : Json) : List (String × String × Json) :=
  (equippedSlots hero).flatMap (fun q => slotRem uid q.1 q.2)

def heroDiag (uid : String) (hero : Json) : List Line :=
  (equippedSlots hero).flatMap (fun q => slotDiag uid q.1 q.2)

/-- Number of heroes having at least one truthy equipped slot. -/
def specHeroesWithItems (data : List (String × Json)) : Nat :=
  (data.map (fun p => heroHW p.2)).sum

/-- Number of truthy string equipped values across the document. -/
def specOldCount (data : List (String × Json)) : Nat :=
  (data.map (fun p => heroOld p.2)).sum

/-- Number of truthy dict equipped values across the document. -/
def specNewCount (data : List (String × Json)) : Nat :=
  (data.map (fun p => heroNew p.2)).sum

/-- Number of truthy equipped values of any other shape. -/
def specOtherCount (data : List (String × Json)) : Nat :=
  (data.map (fun p => heroOther p.2)).sum

/-- Number of truthy equipped values across the document. -/
def specTruthyCount (data : List (String × Json)) : Nat :=
  (data.map (fun p => heroTruthy p.2)).sum

/-- All removed-item matches, in document and slot order. -/
def specRemovedList (data : List (String × Json)) :
    List (String × String × Json) :=
  data.flatMap (fun p => heroRem p.1 p.2)

/-- All old-format diagnostic lines, in document and slot order. -/
def specDiagLines (data : List (String × Json)) : List Line :=
  data.flatMap (fun p => heroDiag p.1 p.2)

/-- Total lookup with default, mirroring `dict.get` on dict-shaped values. -/
def jlookupD (j : Json) (k : String) (d : Json) : Json :=
  match j with
  | Json.obj fs => (lookupList fs k).getD d
  | _ => d

/-- Total version of `len`, zero on shapes without a length (those make the
program fail, so the default never matters on successful runs). -/
def specLen : Json → Nat
  | Json.arr xs => xs.length
  | Json.str s => s.length
  | Json.obj fs => fs.length
  | _ => 0

/-- Sum of all inventory lengths. -/
def specInvTotal (data : List (String × Json)) : Nat :=
  (data.map (fun p => specLen (jlookupD p.2 "inventory" Json.null))).sum

/-- The four lines of one sample block, with `maxEnergy` defaulting to 3. -/
def specSample (p : String × Json) : List Line :=
  [Line.sampleUser p.1,
   Line.sampleStats (jlookupD p.2 "level" Json.null)
     (jlookupD p.2 "energy" Json.null)
     (jlookupD p.2 "maxEnergy" (Json.num 3)),
   Line.sampleEquipped (jlookupD p.2 "equipped" Json.null),
   Line.sampleInventory (specLen (jlookupD p.2 "inventory" Json.null))]

/-- Rendering of one removed-item match as its detail line. -/
def detailLine (r : String × String × Json) : Line :=
  Line.removedDetail r.1 r.2.1 r.2.2

/-- A hero record on which `hero['equipped'].values()` succeeds: a dict
whose `equipped` value is a dict. -/
def goodEquipped (hero : Json) : Bool :=
  match hero with
  | Json.obj fs =>
    match lookupList fs "equipped" with
    | some (Json.obj _) => true
    | _ => false
  | _ => false

/-- A hero record on which `h['inventory']` succeeds. -/
def hasInventoryKey (hero : Json) : Bool :=
  match hero with
  | Json.obj fs => (lookupList fs "inventory").isSome
  | _ => false

/-- A malformed record in the sense of the spec: missing (or ill-shaped)
`equipped`, or missing `inventory`. -/
def badRecord (hero : Json) : Bool :=
  !goodEquipped hero || !hasInventoryKey hero

def allGoodEq (data : List (String × Json)) : Bool :=
  data.all (fun p => goodEquipped p.2)

def isOkB {β : Type} : Except String β → Bool
  | Except.ok _ => true
  | Except.error _ => false

/-- Does the document contain a truthy equipped value that is a dict with no
`id` key? -/
def hasTruthyNoId (doc : Json) : Bool :=
  match doc with
  | Json.obj data =>
    data.any (fun p => (equippedSlots p.2).any (fun q =>
      match q.2 with
      | Json.obj fs => truthy (Json.obj fs) && (lookupList fs "id").isNone
      | _ => false))
  | _ => false

/-- Does the document contain a truthy equipped value that is neither a
string nor a dict? -/
def hasTruthyOtherShape (doc : Json) : Bool :=
  match doc with
  | Json.obj data =>
    data.any (fun p => (equippedSlots p.2).any (fun q =>
      truthy q.2 && !isStrB q.2 && !isObjB q.2))
  | _ => false

/-! ### Concrete example documents -/

/-- A two-hero document: one legacy removed item on `u1`, one structured
removed item on `u2`, `maxEnergy` absent from `u1`. -/
def exWData : List (String × Json) :=
  [("u1", Json.obj [("level", Json.num 5), ("energy", Json.num 2),
     ("equipped", Json.obj [("head", Json.str "👷"), ("body", Json.null)]),
     ("inventory", Json.arr [])]),
   ("u2", Json.obj [("level", Json.num 3), ("energy", Json.num 1),
     ("maxEnergy", Json.num 5),
     ("equipped", Json.obj [("head",
        Json.obj [("id", Json.str "🦹"), ("rarity", Json.str "rare")])]),
     ("inventory", Json.arr [Json.num 1, Json.num 2])])]

/-- The report the script prints on `exWData`. -/
def exWOut : List Line :=
  [Line.totalHeroes 2,
   Line.oldFormatDiag "u1" "head" "👷",
   Line.heroesWithItems 2, Line.oldFormatCount 1, Line.newFormatCount 1,
   Line.removedCount 2,
   Line.removedDetail "u1" "head" (Json.str "👷"),
   Line.removedDetail "u2" "head"
     (Json.obj [("id", Json.str "🦹"), ("rarity", Json.str "rare")]),
   Line.inventoryTotal 2,
   Line.sampleHeader,
   Line.sampleUser "u1",
   Line.sampleStats (Json.num 5) (Json.num 2) (Json.num 3),
   Line.sampleEquipped
     (Json.obj [("head", Json.str "👷"), ("body", Json.null)]),
   Line.sampleInventory 0,
   Line.sampleUser "u2",
   Line.sampleStats (Json.num 3) (Json.num 1) (Json.num 5),
   Line.sampleEquipped (Json.obj [("head",
     Json.obj [("id", Json.str "🦹"), ("rarity", Json.str "rare")])]),
   Line.sampleInventory 2]

/-- A document whose only equipped value is a truthy dict without `id`. -/
def exC1Data : List (String × Json) :=
  [("u1", Json.obj [("level", Json.num 1), ("energy", Json.num 2),
     ("equipped", Json.obj [("head", Json.obj [("rarity", Json.str "rare")])]),
     ("inventory", Json.arr [])])]

/-- A document whose only equipped value is a truthy number (neither a
string nor a dict). -/
def exC2Data : List (String × Json) :=
  [("u1", Json.obj [("level", Json.num 1), ("energy", Json.num 2),
     ("equipped", Json.obj [("head", Json.num 5)]),
     ("inventory", Json.arr [])])]

/-- A hero record lacking the `inventory` key. -/
def exBadHero : Json :=
  Json.obj [("level", Json.num 1), ("energy", Json.num 2),
    ("equipped", Json.obj [])]

def exBadData : List (String × Json) := [("u1", exBadHero)]

/-! ### Characterization of the census loop -/

lemma processSlot_eq (uid slot : String) (v : Json) (s : CensusState) :
    processSlot uid slot v s =
      ⟨s.heroesWithItems, s.oldCount + slotOldN v, s.newCount + slotNewN v,
       s.removed ++ slotRem uid slot v, s.diag ++ slotDiag uid slot v⟩ := by
  cases s with
  | mk h o n r d =>
    cases v with
    | null => simp [processSlot, slotOldN, slotNewN, slotRem, slotDiag, truthy]
    | bool b =>
      cases b <;>
        simp [processSlot, slotOldN, slotNewN, slotRem, slotDiag, truthy]
    | num m =>
      by_cases hm : truthy (Json.num m) <;>
        simp [processSlot, slotOldN, slotNewN, slotRem, slotDiag, hm]
    | str t =>
      by_cases htr : truthy (Json.str t)
      · by_cases hc : t ∈ REMOVED_ITEMS <;>
          simp [processSlot, slotOldN, slotNewN, slotRem, slotDiag, htr, hc]
      · simp [processSlot, slotOldN, slotNewN, slotRem, slotDiag, htr]
    | arr xs =>
      by_cases ha : truthy (Json.arr xs) <;>
        simp [processSlot, slotOldN, slotNewN, slotRem, slotDiag, ha]
    | obj fs =>
      by_cases ho : truthy (Json.obj fs)
      · by_cases hid : idInRemoved fs = true <;>
          simp [processSlot, slotOldN, slotNewN, slotRem, slotDiag, ho, hid]
      · simp [processSlot, slotOldN, slotNewN, slotRem, slotDiag, ho]

lemma censusSlots_eq (uid : String) (slots : List (String × Json))
    (s : CensusState) :
    censusSlots uid slots s =
      ⟨s.heroesWithItems,
       s.oldCount + (slots.map (fun q => slotOldN q.2)).sum,
       s.newCount + (slots.map (fun q => slotNewN q.2)).sum,
       s.removed ++ slots.flatMap (fun q => slotRem uid q.1 q.2),
       s.diag ++ slots.flatMap (fun q => slotDiag uid q.1 q.2)⟩ := by
  induction slots generalizing s with
  | nil => cases s; simp [censusSlots]
  | cons q rest ih =>
    cases s with
    | mk h o n r d =>
      rw [censusSlots, processSlot_eq, ih]
      simp [Nat.add_assoc, List.append_assoc]

lemma slotOldN_zero (v : Json) (h : truthy v = false) : slotOldN v = 0 := by
  simp [slotOldN, h]

lemma slotNewN_zero (v : Json) (h : truthy v = false) : slotNewN v = 0 := by
  simp [slotNewN, h]

lemma slotRem_nil (uid slot : String) (v : Json) (h : truthy v = false) :
    slotRem uid slot v = [] := by
  simp [slotRem, h]

lemma slotDiag_nil (uid slot : String) (v : Json) (h : truthy v = false) :
    slotDiag uid slot v = [] := by
  simp [slotDiag, h]

lemma noTruthy_sums (uid : String) (slots : List (String × Json))
    (h : hasAnyTruthy slots = false) :
    (slots.map (fun q => slotOldN q.2)).sum = 0 ∧
    (slots.map (fun q => slotNewN q.2)).sum = 0 ∧
    slots.flatMap (fun q => slotRem uid q.1 q.2) = [] ∧
    slots.flatMap (fun q => slotDiag uid q.1 q.2) = [] := by
  induction slots with
  | nil => simp
  | cons q rest ih =>
    rw [hasAnyTruthy, List.any_cons, Bool.or_eq_false_iff] at h
    obtain ⟨h1, h2⟩ := h
    obtain ⟨r1, r2, r3, r4⟩ := ih h2
    refine ⟨?_, ?_, ?_, ?_⟩ <;>
      simp only [List.map_cons, List.sum_cons, List.flatMap_cons,
        slotOldN_zero _ h1, slotNewN_zero _ h1, slotRem_nil _ _ _ h1,
        slotDiag_nil _ _ _ h1, r1, r2, r3, r4, List.nil_append, Nat.add_zero,
        Nat.zero_add]

lemma processHero_good (uid : String) (hero : Json) (s : CensusState)
    (hg : goodEquipped hero = true) :
    processHero uid hero s =
      Except.ok ⟨s.heroesWithItems + heroHW hero, s.oldCount + heroOld hero,
        s.newCount + heroNew hero, s.removed ++ heroRem uid hero,
        s.diag ++ heroDiag uid hero⟩ := by
  cases hero <;> simp [goodEquipped] at hg
  case obj fs =>
    rcases hl : lookupList fs "equipped" with _ | v
    · simp [hl] at hg
    · cases v <;> simp [hl] at hg
      case obj slots =>
        have hsl : equippedSlots (Json.obj fs) = slots := by
          simp [equippedSlots, hl]
        by_cases ht : hasAnyTruthy slots
        · simp [processHero, getKey, getItems, hl, ht, censusSlots_eq,
            heroHW, heroOld, heroNew, heroRem, heroDiag, hsl]
        · obtain ⟨z1, z2, z3, z4⟩ :=
            noTruthy_sums uid slots (by simpa using ht)
          simp [processHero, getKey, getItems, hl, ht,
            heroHW, heroOld, heroNew, heroRem, heroDiag, hsl, z1, z2, z3, z4]

lemma processHero_bad (uid : String) (hero : Json) (s : CensusState)
    (hg : goodEquipped hero = false) :
    ∃ e, processHero uid hero s = Except.error e := by
  cases hero <;> simp [processHero, getKey, getItems]
  case obj fs =>
    rcases hl : lookupList fs "equipped" with _ | v
    · simp [hl]
    · cases v with
      | obj slots => simp [goodEquipped, hl] at hg
      | null => simp [hl]
      | bool b => simp [hl]
      | num m => simp [hl]
      | str t => simp [hl]
      | arr xs => simp [hl]

lemma runCensus_cons_ok (p : String × Json) (rest : List (String × Json))
    (s s2 : CensusState) (h : processHero p.1 p.2 s = Except.ok s2) :
    runCensus (p :: rest) s = runCensus rest s2 := by
  rw [runCensus, h]

lemma runCensus_cons_err (p : String × Json) (rest : List (String × Json))
    (s : CensusState) (e : String) (h : processHero p.1 p.2 s = Except.error e) :
    runCensus (p :: rest) s = Except.error e := by
  rw [runCensus, h]

lemma runCensus_good (data : List (String × Json)) (s : CensusState)
    (h : allGoodEq data = true) :
    runCensus data s =
      Except.ok ⟨s.heroesWithItems + specHeroesWithItems data,
        s.oldCount + specOldCount data, s.newCount + specNewCount data,
        s.removed ++ specRemovedList data, s.diag ++ specDiagLines data⟩ := by
  induction data generalizing s with
  | nil =>
    cases s
    simp [runCensus, specHeroesWithItems, specOldCount, specNewCount,
      specRemovedList, specDiagLines]
  | cons p rest ih =>
    rw [allGoodEq, List.all_cons, Bool.and_eq_true] at h
    obtain ⟨h1, h2⟩ := h
    rw [runCensus_cons_ok p rest s _ (processHero_good p.1 p.2 s h1)]
    rw [ih _ h2]
    simp [specHeroesWithItems, specOldCount, specNewCount, specRemovedList,
      specDiagLines, heroHW, heroOld, heroNew, heroRem, heroDiag,
      Nat.add_assoc, List.append_assoc]

lemma runCensus_ok_allGood (data : List (String × Json)) (s s' : CensusState)
    (h : runCensus data s = Except.ok s') : allGoodEq data = true := by
  induction data generalizing s with
  | nil => simp [allGoodEq]
  | cons p rest ih =>
    cases hp : processHero p.1 p.2 s with
    | error e =>
      rw [runCensus_cons_err p rest s e hp] at h
      exact Except.noConfusion h
    | ok s2 =>
      rw [runCensus_cons_ok p rest s s2 hp] at h
      have hg : goodEquipped p.2 = true := by
        by_contra hng
        obtain ⟨e, he⟩ :=
          processHero_bad p.1 p.2 s (Bool.eq_false_iff.mpr hng)
        rw [he] at hp
        exact Except.noConfusion hp
      have hrest := ih s2 h
      rw [allGoodEq, List.all_cons, Bool.and_eq_true]
      exact ⟨hg, hrest⟩

/-! ### Characterization of the inventory and sample passes -/

lemma mapME_ok_map {α β : Type} (f : α → Except String β) (g : α → β)
    (hf : ∀ a b, f a = Except.ok b → b = g a) :
    ∀ (l : List α) (bs : List β), mapME f l = Except.ok bs → bs = l.map g := by
  intro l
  induction l with
  | nil => intro bs h; rw [mapME] at h; cases h; simp
  | cons a rest ih =>
    intro bs h
    rw [mapME] at h
    cases ha : f a with
    | error e => rw [ha] at h; exact Except.noConfusion h
    | ok b =>
      rw [ha] at h
      cases hr : mapME f rest with
      | error e => rw [hr] at h; exact Except.noConfusion h
      | ok bs2 =>
        rw [hr] at h
        cases h
        simp [hf a b ha, ih bs2 hr]

lemma mapME_err_of_mem {α β : Type} (f : α → Except String β)
    (l : List α) (a : α) (ha : a ∈ l) (he : ∃ e, f a = Except.error e) :
    ∃ e2, mapME f l = Except.error e2 := by
  induction l with
  | nil => cases ha
  | cons b rest ih =>
    rw [mapME]
    cases hb : f b with
    | error e => exact ⟨e, rfl⟩
    | ok v =>
      rcases List.mem_cons.mp ha with rfl | hmem
      · obtain ⟨e, he⟩ := he
        rw [he] at hb
        exact Except.noConfusion hb
      · obtain ⟨e2, h2⟩ := ih hmem
        rw [h2]
        exact ⟨e2, rfl⟩

lemma invLenOf_ok (p : String × Json) (n : Nat)
    (h : invLenOf p = Except.ok n) :
    n = specLen (jlookupD p.2 "inventory" Json.null) := by
  rcases p with ⟨uid, hero⟩
  cases hero <;> simp [invLenOf, getKey] at h
  case obj fs =>
    rcases hl : lookupList fs "inventory" with _ | v
    · rw [hl] at h; exact Except.noConfusion h
    · rw [hl] at h
      cases v <;> simp [jsonLen] at h <;>
        simp [jlookupD, hl, specLen, h]

lemma invLenOf_err (p : String × Json) (h : hasInventoryKey p.2 = false) :
    ∃ e, invLenOf p = Except.error e := by
  rcases p with ⟨uid, hero⟩
  cases hero <;> simp [invLenOf, getKey]
  case obj fs =>
    rcases hl : lookupList fs "inventory" with _ | v
    · simp [hl]
    · simp [hasInventoryKey, hl] at h

lemma sampleBlockE_ok (p : String × Json) (b : List Line)
    (h : sampleBlockE p = Except.ok b) : b = specSample p := by
  rcases p with ⟨uid, hero⟩
  cases hero <;> simp [sampleBlockE, getKey] at h
  case obj fs =>
    rcases h1 : lookupList fs "level" with _ | lvl
    · rw [h1] at h; exact Except.noConfusion h
    · rw [h1] at h
      rcases h2 : lookupList fs "energy" with _ | en
      · rw [h2] at h; exact Except.noConfusion h
      · rw [h2] at h
        simp [getD] at h
        rcases h4 : lookupList fs "equipped" with _ | eqv
        · rw [h4] at h; exact Except.noConfusion h
        · rw [h4] at h
          rcases h5 : lookupList fs "inventory" with _ | inv
          · rw [h5] at h; exact Except.noConfusion h
          · rw [h5] at h
            cases inv <;> simp [jsonLen] at h <;>
              simp [specSample, jlookupD, h1, h2, h4, h5, specLen, ← h]

/-! ### The output of a successful run, in closed form -/

lemma analyze_ok_spec (data : List (String × Json)) (out : List Line)
    (h : analyze (Json.obj data) = Except.ok out) :
    out = [Line.totalHeroes data.length]
      ++ specDiagLines data
      ++ [Line.heroesWithItems (specHeroesWithItems data),
          Line.oldFormatCount (specOldCount data),
          Line.newFormatCount (specNewCount data),
          Line.removedCount (specRemovedList data).length]
      ++ (specRemovedList data).map detailLine
      ++ [Line.inventoryTotal (specInvTotal data)]
      ++ [Line.sampleHeader]
      ++ (data.take 3).flatMap specSample := by
  rw [analyze] at h
  cases hc : runCensus data initialCensus with
  | error e => rw [hc] at h; exact Except.noConfusion h
  | ok s =>
    rw [hc] at h
    have hall := runCensus_ok_allGood data initialCensus s hc
    have hs := runCensus_good data initialCensus hall
    rw [hc] at hs
    cases hs
    cases hi : mapME invLenOf data with
    | error e => rw [hi] at h; exact Except.noConfusion h
    | ok lens =>
      rw [hi] at h
      have hlens :=
        mapME_ok_map invLenOf
          (fun p => specLen (jlookupD p.2 "inventory" Json.null))
          (fun a b hb => invLenOf_ok a b hb) data lens hi
      cases hsm : mapME sampleBlockE (data.take 3) with
      | error e => rw [hsm] at h; exact Except.noConfusion h
      | ok samples =>
        rw [hsm] at h
        have hsam :=
          mapME_ok_map sampleBlockE specSample
            (fun a b hb => sampleBlockE_ok a b hb) (data.take 3) samples hsm
        cases h
        subst hlens hsam
        simp [initialCensus, specInvTotal, detailLine, List.flatMap]

/-! ### Counting identities -/

lemma slot_parts (v : Json) :
    slotOldN v + slotNewN v + slotOtherN v = slotTruthyN v := by
  cases v with
  | null => simp [slotOldN, slotNewN, slotOtherN, slotTruthyN, truthy]
  | bool b =>
    cases b <;> simp [slotOldN, slotNewN, slotOtherN, slotTruthyN, truthy]
  | num m =>
    by_cases h : truthy (Json.num m) <;>
      simp [slotOldN, slotNewN, slotOtherN, slotTruthyN, h]
  | str t =>
    by_cases h : truthy (Json.str t) <;>
      simp [slotOldN, slotNewN, slotOtherN, slotTruthyN, h]
  | arr xs =>
    by_cases h : truthy (Json.arr xs) <;>
      simp [slotOldN, slotNewN, slotOtherN, slotTruthyN, h]
  | obj fs =>
    by_cases h : truthy (Json.obj fs) <;>
      simp [slotOldN, slotNewN, slotOtherN, slotTruthyN, h]

lemma sum_three {α : Type} (l : List α) (f g h k : α → Nat)
    (hfk : ∀ x ∈ l, f x + g x + h x = k x) :
    (l.map f).sum + (l.map g).sum + (l.map h).sum = (l.map k).sum := by
  induction l with
  | nil => simp
  | cons a rest ih =>
    simp only [List.map_cons, List.sum_cons]
    have h1 := hfk a (List.mem_cons_self a rest)
    have h2 := ih (fun x hx => hfk x (List.mem_cons_of_mem a hx))
    omega

lemma hero_parts (hero : Json) :
    heroOld hero + heroNew hero + heroOther hero = heroTruthy hero := by
  unfold heroOld heroNew heroOther heroTruthy
  exact sum_three _ _ _ _ _ (fun q _ => slot_parts q.2)

lemma spec_parts (data : List (String × Json)) :
    specOldCount data + specNewCount data + specOtherCount data =
      specTruthyCount data := by
  unfold specOldCount specNewCount specOtherCount specTruthyCount
  exact sum_three _ _ _ _ _ (fun p _ => hero_parts p.2)

lemma sum_indicator {α : Type} (l : List α) (p : α → Bool) :
    (l.map (fun x => if p x then 1 else 0)).sum = (l.filter p).length := by
  induction l with
  | nil => simp
  | cons a rest ih =>
    by_cases h : p a
    · simp [h, ih, List.filter_cons, Nat.add_comm]
    · simp [h, ih, List.filter_cons]

lemma specHW_filter (data : List (String × Json)) :
    specHeroesWithItems data =
      (data.filter (fun p => hasAnyTruthy (equippedSlots p.2))).length := by
  unfold specHeroesWithItems heroHW
  exact sum_indicator data _

/-! ### Shape of the lines before the sample header -/

lemma sampleHeader_not_mem_slotDiag (uid slot : String) (v : Json) :
    Line.sampleHeader ∉ slotDiag uid slot v := by
  by_cases h : truthy v
  · cases v <;> simp [slotDiag, h]
  · simp [slotDiag, Bool.eq_false_iff.mpr h]

lemma sampleHeader_not_mem_specDiag (data : List (String × Json)) :
    Line.sampleHeader ∉ specDiagLines data := by
  unfold specDiagLines heroDiag
  intro hmem
  rw [List.mem_flatMap] at hmem
  obtain ⟨p, hp, hin⟩ := hmem
  rw [List.mem_flatMap] at hin
  obtain ⟨q, hq, hin2⟩ := hin
  exact sampleHeader_not_mem_slotDiag p.1 q.1 q.2 hin2

/-! ### The claims -/

/-- C1 counterexample: a document containing a truthy equipped value that is
a dict lacking an `id` key does NOT make the run fail: `equipped.get('id')`
yields a missing-value placeholder, the membership test is false, and the
run completes with a full report. -/
theorem C1_counterexample :
    hasTruthyNoId (Json.obj exC1Data) = true ∧
    isOkB (run (Except.ok (Json.obj exC1Data))) = true :=
  ⟨rfl, rfl⟩

/-- C1 (amended): for every truthy equipped value that is a dict lacking an
`id` key, the removed-item membership test silently fails to match: the
value is counted as new format, nothing is appended to the removed-item
list, no diagnostic is printed, and processing continues (no failure). -/
theorem C1_amended (uid slot : String) (fs : List (String × Json))
    (s : CensusState) (ht : truthy (Json.obj fs) = true)
    (hid : lookupList fs "id" = none) :
    processSlot uid slot (Json.obj fs) s =
      { s with newCount := s.newCount + 1 } := by
  simp [processSlot, ht, idInRemoved, hid]

/-- C1 witness: the amended statement evaluated on a concrete id-less
record. -/
theorem C1_witness :
    truthy (Json.obj [("rarity", Json.str "rare")]) = true ∧
    lookupList [("rarity", Json.str "rare")] "id" = none ∧
    processSlot "u1" "head" (Json.obj [("rarity", Json.str "rare")])
        initialCensus =
      { initialCensus with newCount := initialCensus.newCount + 1 } :=
  ⟨rfl, rfl, C1_amended "u1" "head" [("rarity", Json.str "rare")]
    initialCensus rfl rfl⟩

/-- C2 counterexample: a document whose only equipped value is the truthy
number `5` (neither a string nor a dict) is reported with a new-format count
of 0, not 1: the value is NOT classified as new format. -/
theorem C2_counterexample :
    hasTruthyOtherShape (Json.obj exC2Data) = true ∧
    run (Except.ok (Json.obj exC2Data)) = Except.ok
      [Line.totalHeroes 1,
       Line.heroesWithItems 1, Line.oldFormatCount 0, Line.newFormatCount 0,
       Line.removedCount 0, Line.inventoryTotal 0, Line.sampleHeader,
       Line.sampleUser "u1",
       Line.sampleStats (Json.num 1) (Json.num 2) (Json.num 3),
       Line.sampleEquipped (Json.obj [("head", Json.num 5)]),
       Line.sampleInventory 0] :=
  ⟨rfl, rfl⟩

/-- C2 (amended): every truthy equipped value that is neither a string nor
a dict is silently skipped by the census: it changes no counter, appends no
removed-item match and prints no diagnostic. -/
theorem C2_amended (uid slot : String) (v : Json) (s : CensusState)
    (ht : truthy v = true) (hstr : isStrB v = false)
    (hobj : isObjB v = false) :
    processSlot uid slot v s = s := by
  cases v <;> simp [isStrB, isObjB] at hstr hobj <;>
    simp [processSlot, ht]

/-- C2 witness: the amended statement evaluated on the truthy number `5`. -/
theorem C2_witness :
    truthy (Json.num 5) = true ∧ isStrB (Json.num 5) = false ∧
    isObjB (Json.num 5) = false ∧
    processSlot "u1" "head" (Json.num 5) initialCensus = initialCensus :=
  ⟨rfl, rfl, rfl, C2_amended "u1" "head" (Json.num 5) initialCensus rfl rfl rfl⟩

/-- C3: on every successful run, the printed heroes-with-items counter is
the number of heroes with some truthy equipped slot, the old-format counter
counts exactly the truthy string values, the new-format counter counts
exactly the truthy dict values, the remaining truthy values (other shapes)
are in neither bucket, and old + new ≤ total truthy with equality whenever
no other shape is present. -/
theorem C3_census_counters (data : List (String × Json)) (out : List Line)
    (h : analyze (Json.obj data) = Except.ok out) :
    Line.heroesWithItems (specHeroesWithItems data) ∈ out ∧
    Line.oldFormatCount (specOldCount data) ∈ out ∧
    Line.newFormatCount (specNewCount data) ∈ out ∧
    specHeroesWithItems data =
      (data.filter (fun p => hasAnyTruthy (equippedSlots p.2))).length ∧
    specOldCount data + specNewCount data + specOtherCount data =
      specTruthyCount data ∧
    specOldCount data + specNewCount data ≤ specTruthyCount data ∧
    (specOtherCount data = 0 →
      specOldCount data + specNewCount data = specTruthyCount data) := by
  have hout := analyze_ok_spec data out h
  subst hout
  have hp := spec_parts data
  exact ⟨by simp, by simp, by simp, specHW_filter data, hp,
    by omega, by omega⟩

/-- C3 witness: the counters of the two-hero example document. -/
theorem C3_witness :
    Line.heroesWithItems (specHeroesWithItems exWData) ∈ exWOut ∧
    Line.oldFormatCount (specOldCount exWData) ∈ exWOut ∧
    Line.newFormatCount (specNewCount exWData) ∈ exWOut ∧
    specHeroesWithItems exWData =
      (exWData.filter (fun p => hasAnyTruthy (equippedSlots p.2))).length ∧
    specOldCount exWData + specNewCount exWData + specOtherCount exWData =
      specTruthyCount exWData ∧
    specOldCount exWData + specNewCount exWData ≤ specTruthyCount exWData ∧
    (specOtherCount exWData = 0 →
      specOldCount exWData + specNewCount exWData = specTruthyCount exWData) :=
  C3_census_counters exWData exWOut rfl

/-- C4: on every successful run, the printed removed-items count is the
number of truthy equipped values whose identifier (the string itself for a
legacy value, the `id` attribute for a dict value) is in the five-element
removed set, and each match appears as a detail line carrying the user id,
the slot name and the raw original value. -/
theorem C4_removed_accumulation (data : List (String × Json))
    (out : List Line) (h : analyze (Json.obj data) = Except.ok out) :
    REMOVED_ITEMS.length = 5 ∧
    Line.removedCount (specRemovedList data).length ∈ out ∧
    ∀ r ∈ specRemovedList data,
      Line.removedDetail r.1 r.2.1 r.2.2 ∈ out := by
  have hout := analyze_ok_spec data out h
  subst hout
  refine ⟨rfl, by simp, ?_⟩
  intro r hr
  have hm : Line.removedDetail r.1 r.2.1 r.2.2 ∈
      (specRemovedList data).map detailLine :=
    List.mem_map_of_mem detailLine hr
  simp only [List.mem_append]
  tauto

/-- C4 witness: the removed-item matches of the two-hero example. -/
theorem C4_witness :
    REMOVED_ITEMS.length = 5 ∧
    Line.removedCount (specRemovedList exWData).length ∈ exWOut ∧
    ∀ r ∈ specRemovedList exWData,
      Line.removedDetail r.1 r.2.1 r.2.2 ∈ exWOut :=
  C4_removed_accumulation exWData exWOut rfl

/-- C5: on every successful run, the output is exactly: total-heroes line,
then the old-format diagnostics in discovery order, then the four census
summary lines, then the removed-item detail lines, then the inventory
total, then the sample header, then the sample blocks of the first (at
most) three heroes. -/
theorem C5_output_order (data : List (String × Json)) (out : List Line)
    (h : analyze (Json.obj data) = Except.ok out) :
    out = [Line.totalHeroes data.length]
      ++ specDiagLines data
      ++ [Line.heroesWithItems (specHeroesWithItems data),
          Line.oldFormatCount (specOldCount data),
          Line.newFormatCount (specNewCount data),
          Line.removedCount (specRemovedList data).length]
      ++ (specRemovedList data).map detailLine
      ++ [Line.inventoryTotal (specInvTotal data)]
      ++ [Line.sampleHeader]
      ++ (data.take 3).flatMap specSample :=
  analyze_ok_spec data out h

/-- C5 witness: the output of the two-hero example, in closed form. -/
theorem C5_witness :
    exWOut = [Line.totalHeroes exWData.length]
      ++ specDiagLines exWData
      ++ [Line.heroesWithItems (specHeroesWithItems exWData),
          Line.oldFormatCount (specOldCount exWData),
          Line.newFormatCount (specNewCount exWData),
          Line.removedCount (specRemovedList exWData).length]
      ++ (specRemovedList exWData).map detailLine
      ++ [Line.inventoryTotal (specInvTotal exWData)]
      ++ [Line.sampleHeader]
      ++ (exWData.take 3).flatMap specSample :=
  C5_output_order exWData exWOut rfl

/-- C6: on every successful run, everything after the (unique) sample
header is the sample blocks of the first at-most-three heroes of the
document in insertion order, each rendering energy over the effective
max-energy, where max-energy defaults to `3` when the field is absent. -/
theorem C6_sample_section (data : List (String × Json)) (out : List Line)
    (h : analyze (Json.obj data) = Except.ok out) :
    (∃ pre, out = pre ++ [Line.sampleHeader]
        ++ (data.take 3).flatMap specSample ∧
      Line.sampleHeader ∉ pre) ∧
    (data.take 3).length ≤ 3 ∧
    ∀ p ∈ data.take 3,
      Line.sampleStats (jlookupD p.2 "level" Json.null)
        (jlookupD p.2 "energy" Json.null)
        (jlookupD p.2 "maxEnergy" (Json.num 3)) ∈ out := by
  have hout := analyze_ok_spec data out h
  subst hout
  refine ⟨⟨[Line.totalHeroes data.length] ++ specDiagLines data
      ++ [Line.heroesWithItems (specHeroesWithItems data),
          Line.oldFormatCount (specOldCount data),
          Line.newFormatCount (specNewCount data),
          Line.removedCount (specRemovedList data).length]
      ++ (specRemovedList data).map detailLine
      ++ [Line.inventoryTotal (specInvTotal data)], ?_, ?_⟩, ?_, ?_⟩
  · simp [List.append_assoc]
  · intro hmem
    simp [detailLine] at hmem
    exact sampleHeader_not_mem_specDiag data hmem
  · have := List.length_take 3 data
    simp [this]
  · intro p hp
    have hin : Line.sampleStats (jlookupD p.2 "level" Json.null)
        (jlookupD p.2 "energy" Json.null)
        (jlookupD p.2 "maxEnergy" (Json.num 3)) ∈ specSample p := by
      simp [specSample]
    have hfm : Line.sampleStats (jlookupD p.2 "level" Json.null)
        (jlookupD p.2 "energy" Json.null)
        (jlookupD p.2 "maxEnergy" (Json.num 3)) ∈
        (data.take 3).flatMap specSample :=
      List.mem_flatMap.mpr ⟨p, hp, hin⟩
    simp only [List.mem_append]
    tauto

/-- C6 witness: the sample section of the two-hero example. -/
theorem C6_witness :
    (∃ pre, exWOut = pre ++ [Line.sampleHeader]
        ++ (exWData.take 3).flatMap specSample ∧
      Line.sampleHeader ∉ pre) ∧
    (exWData.take 3).length ≤ 3 ∧
    ∀ p ∈ exWData.take 3,
      Line.sampleStats (jlookupD p.2 "level" Json.null)
        (jlookupD p.2 "energy" Json.null)
        (jlookupD p.2 "maxEnergy" (Json.num 3)) ∈ exWOut :=
  C6_sample_section exWData exWOut rfl

/-- C7: on every successful run, the printed inventory total is the sum of
the inventory lengths over all heroes of the document, zero-length
inventories included. -/
theorem C7_inventory_total (data : List (String × Json)) (out : List Line)
    (h : analyze (Json.obj data) = Except.ok out) :
    Line.inventoryTotal
      ((data.map (fun p => specLen (jlookupD p.2 "inventory" Json.null))).sum)
      ∈ out := by
  have hout := analyze_ok_spec data out h
  subst hout
  simp [specInvTotal]

/-- C7 witness: the inventory total of the two-hero example. -/
theorem C7_witness :
    Line.inventoryTotal
      ((exWData.map
        (fun p => specLen (jlookupD p.2 "inventory" Json.null))).sum)
      ∈ exWOut :=
  C7_inventory_total exWData exWOut rfl

/-- C8: a load failure (unreadable file or invalid JSON) or any record that
lacks the `equipped` key, has a non-dict `equipped` value, or lacks the
`inventory` key makes the whole run fail: no partial report is produced and
no per-record recovery happens. -/
theorem C8_malformed_fatal (load : Except String Json)
    (h : (∃ e, load = Except.error e) ∨
      ∃ data, load = Except.ok (Json.obj data) ∧
        ∃ p ∈ data, badRecord p.2 = true) :
    ∃ e, run load = Except.error e := by
  rcases h with ⟨e, rfl⟩ | ⟨data, rfl, p, hp, hbad⟩
  · exact ⟨e, rfl⟩
  · show ∃ e, analyze (Json.obj data) = Except.error e
    cases hc : runCensus data initialCensus with
    | error e => exact ⟨e, by simp only [analyze, hc]⟩
    | ok s =>
      have hall := runCensus_ok_allGood data initialCensus s hc
      have hgood : goodEquipped p.2 = true := by
        rw [allGoodEq, List.all_eq_true] at hall
        exact hall p hp
      have hinv : hasInventoryKey p.2 = false := by
        rw [badRecord, hgood] at hbad
        simpa using hbad
      obtain ⟨e2, he2⟩ :=
        mapME_err_of_mem invLenOf data p hp (invLenOf_err p hinv)
      exact ⟨e2, by simp only [analyze, hc, he2]⟩

/-- C8 witness: a one-hero document whose record lacks `inventory`. -/
theorem C8_witness :
    ∃ e, run (Except.ok (Json.obj exBadData)) = Except.error e :=
  C8_malformed_fatal (Except.ok (Json.obj exBadData))
    (Or.inr ⟨exBadData, rfl, ("u1", exBadHero),
      List.mem_singleton.mpr rfl, rfl⟩)

/-- C9: the report is a deterministic function of the loaded document: two
runs on equal load results produce identical output. -/
theorem C9_deterministic (l1 l2 : Except String Json) (h : l1 = l2) :
    run l1 = run l2 := by
  rw [h]

/-- C9 witness: two runs on the example document coincide. -/
theorem C9_witness :
    run (Except.ok (Json.obj exWData)) = run (Except.ok (Json.obj exWData)) :=
  C9_deterministic (Except.ok (Json.obj exWData))
    (Except.ok (Json.obj exWData)) rfl

/-- C10: an empty dict and an empty string are falsy equipped values and are
skipped entirely: they change no counter, are never membership-tested (no
removed-item match is recorded), and a hero all of whose equipped values
are such empties does not increment the heroes-with-items counter. -/
theorem C10_empty_values_skipped (uid slot : String)
    (slots : List (String × Json)) (s : CensusState) :
    processSlot uid slot (Json.obj []) s = s ∧
    processSlot uid slot (Json.str "") s = s ∧
    ((∀ q ∈ slots, q.2 = Json.obj [] ∨ q.2 = Json.str "") →
      processHero uid (Json.obj [("equipped", Json.obj slots)]) s =
        Except.ok s) := by
  refine ⟨by simp [processSlot, truthy], by simp [processSlot, truthy], ?_⟩
  intro hall
  have hfalse : hasAnyTruthy slots = false := by
    rw [hasAnyTruthy, List.any_eq_false]
    intro q hq
    rcases hall q hq with hq2 | hq2 <;> simp [hq2, truthy]
  simp [processHero, getKey, getItems, lookupList, hfalse]

/-- C10 witness: a hero whose two equipped slots hold an empty dict and an
empty string contributes nothing to the census. -/
theorem C10_witness :
    processSlot "u1" "head" (Json.obj []) initialCensus = initialCensus ∧
    processSlot "u1" "head" (Json.str "") initialCensus = initialCensus ∧
    processHero "u1" (Json.obj [("equipped", Json.obj
        [("head", Json.obj []), ("body", Json.str "")])]) initialCensus =
      Except.ok initialCensus := by
  have h := C10_empty_values_skipped "u1" "head"
    [("head", Json.obj []), ("body", Json.str "")] initialCensus
  refine ⟨h.1, h.2.1, h.2.2 ?_⟩
  intro q hq
  rcases List.mem_cons.mp hq with rfl | hq2
  · exact Or.inl rfl
  · rcases List.mem_singleton.mp hq2 with rfl
    exact Or.inr rfl
